import Mathlib

/-
  Verification development for runtime/nsd_gtls.c, the GnuTLS network
  stream driver of the rsyslog runtime.  The driver logic (mode and
  auth-mode configuration, fingerprint authentication, the dual-mode
  Send/Rcv/Connect/AcceptConnReq paths and the global listener
  initialisation) is embedded shallowly below; the external GnuTLS
  engine and the plain-tcp delegate are represented by explicit result
  oracles threaded through each operation, exactly where the C code
  makes the corresponding library call.
-/

/-- Return codes used by the driver (values come from rsyslog.h, which only
the identity of each code matters for; they are embedded as an enumeration). -/
inductive rsRetVal where
  | RS_RET_OK
  | RS_RET_GNUTLS_ERR
  | RS_RET_INVALID_FINGERPRINT
  | RS_RET_TLS_NO_CERT
  | RS_RET_TLS_CERT_ERR
  | RS_RET_TLS_HANDSHAKE_ERR
  | RS_RET_INVALID_DRVR_MODE
  | RS_RET_VALUE_NOT_SUPPORTED
  | RS_RET_VALUE_NOT_IN_THIS_MODE
  | RS_RET_CONNECTION_ABORTREQ
  | RS_RET_IO_ERR
  deriving DecidableEq, Repr

open rsRetVal

/-- GnuTLS transient code: operation was interrupted, retry. -/
def GNUTLS_E_INTERRUPTED : Int := -52

/-- GnuTLS transient code: operation would block, retry. -/
def GNUTLS_E_AGAIN : Int := -28

/-- One hex digit as printed by snprintf with the %2.2X conversion:
digits 0-9 then uppercase A-F. -/
def hexChar (n : Nat) : Char :=
  if n < 10 then Char.ofNat (48 + n) else Char.ofNat (55 + n)

/-- The two characters snprintf(buf, 4, s, b) emits for the %2.2X conversion
of one octet b (0 <= b <= 255): exactly two uppercase hex digits. -/
def byteHex (b : Fin 256) : List Char :=
  [hexChar (b.val / 16), hexChar (b.val % 16)]

/-- The loop body of GenFingerprintStr: bAddColon is false for the first
octet only, so a colon separates every pair of adjacent octet renderings. -/
def genFpLoop (bAddColon : Bool) (acc : List Char) : List (Fin 256) → List Char
  | [] => acc
  | b :: rest => genFpLoop true (acc ++ (if bAddColon then [':'] else []) ++ byteHex b) rest

/-- GenFingerprintStr (nsd_gtls.c, lines 83-112): render a digest as
uppercase hex octet pairs joined by colons. -/
def GenFingerprintStr (fp : List (Fin 256)) : List Char :=
  genFpLoop false [] fp

/-- Uppercase hexadecimal digit test (0-9 or A-F). -/
def isUpHexDigit (c : Char) : Bool :=
  (48 ≤ c.toNat && c.toNat ≤ 57) || (65 ≤ c.toNat && c.toNat ≤ 70)

theorem hexChar_isUpHex (n : Nat) (h : n < 16) : isUpHexDigit (hexChar n) = true := by
  interval_cases n <;> decide

theorem hexChar_ne_colon (n : Nat) (h : n < 16) : hexChar n ≠ ':' := by
  interval_cases n <;> decide

theorem byteHex_div_lt (b : Fin 256) : b.val / 16 < 16 :=
  Nat.div_lt_of_lt_mul b.isLt

theorem byteHex_mod_lt (b : Fin 256) : b.val % 16 < 16 :=
  Nat.mod_lt _ (by norm_num)

theorem byteHex_count_colon (b : Fin 256) : (byteHex b).count ':' = 0 := by
  simp [byteHex, List.count_cons, List.count_nil,
    hexChar_ne_colon _ (byteHex_div_lt b), hexChar_ne_colon _ (byteHex_mod_lt b)]

theorem byteHex_countP_hex (b : Fin 256) : (byteHex b).countP isUpHexDigit = 2 := by
  simp [byteHex, List.countP_cons,
    hexChar_isUpHex _ (byteHex_div_lt b), hexChar_isUpHex _ (byteHex_mod_lt b)]

theorem byteHex_mem_hex (b : Fin 256) (c : Char) (hc : c ∈ byteHex b) :
    isUpHexDigit c = true := by
  simp [byteHex] at hc
  rcases hc with h | h <;> subst h
  · exact hexChar_isUpHex _ (byteHex_div_lt b)
  · exact hexChar_isUpHex _ (byteHex_mod_lt b)

theorem genFpLoop_length (bs : List (Fin 256)) :
    ∀ acc, (genFpLoop true acc bs).length = acc.length + 3 * bs.length := by
  induction bs with
  | nil => intro acc; simp [genFpLoop]
  | cons b rest ih =>
      intro acc
      simp only [genFpLoop, ih, List.length_append]
      simp [byteHex]
      ring

theorem genFpLoop_count_colon (bs : List (Fin 256)) :
    ∀ acc, (genFpLoop true acc bs).count ':' = acc.count ':' + bs.length := by
  induction bs with
  | nil => intro acc; simp [genFpLoop]
  | cons b rest ih =>
      intro acc
      simp only [genFpLoop, ih, List.count_append]
      rw [byteHex_count_colon]
      simp [List.count_cons]
      ring

theorem genFpLoop_countP_hex (bs : List (Fin 256)) :
    ∀ acc, (genFpLoop true acc bs).countP isUpHexDigit
      = acc.countP isUpHexDigit + 2 * bs.length := by
  induction bs with
  | nil => intro acc; simp [genFpLoop]
  | cons b rest ih =>
      intro acc
      have hcolon : isUpHexDigit ':' = false := by decide
      simp only [genFpLoop, ih, List.countP_append]
      rw [byteHex_countP_hex]
      simp [List.countP_cons, hcolon]
      ring

theorem genFpLoop_mem (bs : List (Fin 256)) :
    ∀ acc c, c ∈ genFpLoop true acc bs → c ∈ acc ∨ c = ':' ∨ isUpHexDigit c = true := by
  induction bs with
  | nil => intro acc c hc; exact Or.inl hc
  | cons b rest ih =>
      intro acc c hc
      rcases ih _ c hc with h | h | h
      · simp at h
        rcases h with h | h | h
        · exact Or.inl h
        · exact Or.inr (Or.inl h)
        · exact Or.inr (Or.inr (byteHex_mem_hex b c h))
      · exact Or.inr (Or.inl h)
      · exact Or.inr (Or.inr h)

theorem GenFingerprintStr_cons (b : Fin 256) (bs : List (Fin 256)) :
    GenFingerprintStr (b :: bs) = genFpLoop true (byteHex b) bs := by
  simp [GenFingerprintStr, genFpLoop]

/-- C7: for every digest of D bytes, D >= 1, the rendered fingerprint string has
exactly 2D uppercase-hex characters and exactly D-1 colon separators, and every
character is either an uppercase hex digit or a colon. -/
theorem C7_fingerprint_format (fp : List (Fin 256)) (hfp : 1 ≤ fp.length) :
    (GenFingerprintStr fp).countP isUpHexDigit = 2 * fp.length ∧
    (GenFingerprintStr fp).count ':' = fp.length - 1 ∧
    ∀ c ∈ GenFingerprintStr fp, c = ':' ∨ isUpHexDigit c = true := by
  match fp, hfp with
  | b :: bs, _ =>
    rw [GenFingerprintStr_cons]
    refine ⟨?_, ?_, ?_⟩
    · rw [genFpLoop_countP_hex, byteHex_countP_hex]
      simp [List.length_cons]
      ring
    · rw [genFpLoop_count_colon, byteHex_count_colon]
      simp
    · intro c hc
      rcases genFpLoop_mem bs (byteHex b) c hc with h | h | h
      · exact Or.inr (byteHex_mem_hex b c h)
      · exact Or.inl h
      · exact Or.inr h

/-- C7 witness: a concrete two-byte digest. -/
theorem C7_fingerprint_format_witness :
    (GenFingerprintStr [(18 : Fin 256), 171]).countP isUpHexDigit = 2 * 2 ∧
    (GenFingerprintStr [(18 : Fin 256), 171]).count ':' = 2 - 1 ∧
    ∀ c ∈ GenFingerprintStr [(18 : Fin 256), 171], c = ':' ∨ isUpHexDigit c = true := by
  have h := C7_fingerprint_format [(18 : Fin 256), 171] (by decide)
  simpa using h

/-- The three authentication modes of the driver (values from nsd_gtls.h). -/
inductive AuthMode where
  | GTLS_AUTH_CERTNAME
  | GTLS_AUTH_CERTFINGERPRINT
  | GTLS_AUTH_CERTANON
  deriving DecidableEq, Repr

/-- Certificate types as reported by gnutls_certificate_type_get. -/
inductive CertType where
  | GNUTLS_CRT_X509
  | GNUTLS_CRT_OPENPGP
  deriving DecidableEq, Repr

/-- Retry indicator set when the responder-side handshake would block. -/
inductive RtryCall where
  | gtlsRtry_None
  | gtlsRtry_handshake
  deriving DecidableEq, Repr

/-- The driver-visible state of one nsd_gtls session object.  tcpAborted
stands for the effect of forwarding an abort to the plain-tcp delegate. -/
structure nsd_gtls where
  iMode : Int
  authMode : AuthMode
  pPermPeers : Option (List (List Char))
  bAbortConn : Bool
  bHaveSess : Bool
  bIsInitiator : Bool
  rtryCall : RtryCall
  bReportAuthErr : Bool
  tcpAborted : Bool
  deriving DecidableEq, Repr

/-- Modelled from the spec: the object constructor zero-initialises every
field (the authMode enumeration lives in nsd_gtls.h, which is not among the
examined sources), and per the spec the default auth mode is CertificateName;
the constructor body in nsd_gtls.c then sets bReportAuthErr to 1. -/
def nsd_gtlsConstruct : nsd_gtls :=
  { iMode := 0
    authMode := AuthMode.GTLS_AUTH_CERTNAME
    pPermPeers := none
    bAbortConn := false
    bHaveSess := false
    bIsInitiator := false
    rtryCall := RtryCall.gtlsRtry_None
    bReportAuthErr := true
    tcpAborted := false }

/-- SetMode (nsd_gtls.c, lines 415-432): only modes 0 (plain tcp) and
1 (TLS) are accepted; anything else is rejected before the assignment. -/
def SetMode (mode : Int) (pThis : nsd_gtls) : rsRetVal × nsd_gtls :=
  if mode ≠ 0 ∧ mode ≠ 1 then (RS_RET_INVALID_DRVR_MODE, pThis)
  else (RS_RET_OK, { pThis with iMode := mode })

/-- Case-insensitive string equality, the behaviour of strcasecmp comparing
equal (the C library is an external collaborator). -/
def strcasecmpEq (a b : List Char) : Bool :=
  (a.map Char.toLower) == (b.map Char.toLower)

/-- SetAuthMode (nsd_gtls.c, lines 442-466): NULL or x509/name selects
certificate-name mode, x509/fingerprint selects fingerprint mode, anon
selects anonymous mode, anything else is rejected. -/
def SetAuthMode (mode : Option (List Char)) (pThis : nsd_gtls) : rsRetVal × nsd_gtls :=
  match mode with
  | none => (RS_RET_OK, { pThis with authMode := AuthMode.GTLS_AUTH_CERTNAME })
  | some m =>
      if strcasecmpEq m ("x509/name".toList) then
        (RS_RET_OK, { pThis with authMode := AuthMode.GTLS_AUTH_CERTNAME })
      else if strcasecmpEq m ("x509/fingerprint".toList) then
        (RS_RET_OK, { pThis with authMode := AuthMode.GTLS_AUTH_CERTFINGERPRINT })
      else if strcasecmpEq m ("anon".toList) then
        (RS_RET_OK, { pThis with authMode := AuthMode.GTLS_AUTH_CERTANON })
      else (RS_RET_VALUE_NOT_SUPPORTED, pThis)

/-- SetPermPeers (nsd_gtls.c, lines 472-492): a NULL list is a no-op; a
non-NULL list is stored only in the two certificate auth modes. -/
def SetPermPeers (pPermPeers : Option (List (List Char))) (pThis : nsd_gtls) :
    rsRetVal × nsd_gtls :=
  match pPermPeers with
  | none => (RS_RET_OK, pThis)
  | some l =>
      if pThis.authMode ≠ AuthMode.GTLS_AUTH_CERTFINGERPRINT ∧
         pThis.authMode ≠ AuthMode.GTLS_AUTH_CERTNAME then
        (RS_RET_VALUE_NOT_IN_THIS_MODE, pThis)
      else (RS_RET_OK, { pThis with pPermPeers := some l })

/-- Abort (nsd_gtls.c, lines 517-530): in plain mode the abort is forwarded
to the plain-tcp delegate; in TLS mode nothing is done.  No field of the
gtls session itself is modified. -/
def Abort (pThis : nsd_gtls) : rsRetVal × nsd_gtls :=
  if pThis.iMode = 0 then (RS_RET_OK, { pThis with tcpAborted := true })
  else (RS_RET_OK, pThis)

/-- Engine-side inputs consumed by gtlsChkFingerprint: the certificate type
of the session, the DER certificate chain returned by
gnutls_certificate_get_peers, the digest the engine computes for a DER
certificate, and the return codes of the three fallible engine calls. -/
structure ChkFingerprintOracle where
  certType : CertType
  certList : List (List (Fin 256))
  digestOf : List (Fin 256) → List (Fin 256)
  rCrtInit : Int
  rCrtImport : Int
  rGetFingerprint : Int

/-- Modelled from the spec: rsCStrSzStrCmp (runtime/stringbuf.c) is not among
the examined sources; per the spec the rendered fingerprint is compared
against a permitted-peer entry by exact, case-sensitive string equality. -/
def fingerprintEq (fp pszID : List Char) : Bool :=
  fp == pszID

/-- The permitted-peers search loop of gtlsChkFingerprint (lines 305-313):
walk the list in order and stop at the first matching entry. -/
def fpMatchLoop (fp : List Char) : List (List Char) → Bool
  | [] => false
  | p :: rest => if fingerprintEq fp p then true else fpMatchLoop fp rest

/-- gtlsChkFingerprint (nsd_gtls.c, lines 256-334): in any auth mode other
than fingerprint the check succeeds immediately; otherwise the leaf (first)
certificate's digest is rendered and searched in the permitted-peers list,
and a failed search reports RS_RET_INVALID_FINGERPRINT (clearing
bReportAuthErr after the one-time log message). -/
def gtlsChkFingerprint (o : ChkFingerprintOracle) (pThis : nsd_gtls) :
    rsRetVal × nsd_gtls :=
  if pThis.authMode ≠ AuthMode.GTLS_AUTH_CERTFINGERPRINT then (RS_RET_OK, pThis)
  else if o.certType ≠ CertType.GNUTLS_CRT_X509 then (RS_RET_TLS_CERT_ERR, pThis)
  else if o.certList.length < 1 then (RS_RET_TLS_NO_CERT, pThis)
  else if o.rCrtInit ≠ 0 then (RS_RET_GNUTLS_ERR, pThis)
  else if o.rCrtImport ≠ 0 then (RS_RET_GNUTLS_ERR, pThis)
  else if o.rGetFingerprint ≠ 0 then (RS_RET_GNUTLS_ERR, pThis)
  else
    let fp := GenFingerprintStr (o.digestOf o.certList.headI)
    if fpMatchLoop fp (pThis.pPermPeers.getD []) then (RS_RET_OK, pThis)
    else (RS_RET_INVALID_FINGERPRINT,
      if pThis.bReportAuthErr then { pThis with bReportAuthErr := false } else pThis)

/-- The TLS-mode write loop of Send (lines 698-709): call the record layer
until it yields a byte count, looping on the two transient codes; any other
negative code aborts with RS_RET_GNUTLS_ERR.  The list holds the successive
results of gnutls_record_send; none means the oracle was exhausted with the
loop still running. -/
def sendLoop (pLenBuf : Int) : List Int → Option (rsRetVal × Int)
  | [] => none
  | iSent :: rest =>
      if 0 ≤ iSent then some (RS_RET_OK, iSent)
      else if iSent ≠ GNUTLS_E_INTERRUPTED ∧ iSent ≠ GNUTLS_E_AGAIN then
        some (RS_RET_GNUTLS_ERR, pLenBuf)
      else sendLoop pLenBuf rest

/-- Send (nsd_gtls.c, lines 681-713): aborted sessions are rejected first,
plain mode delegates to the plain-tcp Send (whose outcome is the ptcpSend
oracle), TLS mode runs the write loop. -/
def Send (ptcpSend : rsRetVal × Int) (tlsResults : List Int) (pLenBuf : Int)
    (pThis : nsd_gtls) : Option (rsRetVal × Int) :=
  if pThis.bAbortConn then some (RS_RET_CONNECTION_ABORTREQ, pLenBuf)
  else if pThis.iMode = 0 then some ptcpSend
  else sendLoop pLenBuf tlsResults

/-- Rcv (nsd_gtls.c, lines 644-672): aborted sessions are rejected first,
plain mode delegates, TLS mode makes a single gnutls_record_recv call: a
negative result sets the length to -1 and aborts with RS_RET_GNUTLS_ERR, a
non-negative result is returned as the byte count.  tlsReads holds the
responses the record layer would give to successive calls; the unconsumed
suffix is returned so that the number of calls made is observable. -/
def Rcv (ptcpRcv : rsRetVal × Int) (tlsReads : List Int) (pLenBuf : Int)
    (pThis : nsd_gtls) : Option ((rsRetVal × Int) × List Int) :=
  if pThis.bAbortConn then some ((RS_RET_CONNECTION_ABORTREQ, pLenBuf), tlsReads)
  else if pThis.iMode = 0 then some (ptcpRcv, tlsReads)
  else
    match tlsReads with
    | [] => none
    | lenRcvd :: rest =>
        if lenRcvd < 0 then some ((RS_RET_GNUTLS_ERR, -1), rest)
        else some ((RS_RET_OK, lenRcvd), rest)

theorem fpMatchLoop_iff (fp : List Char) (l : List (List Char)) :
    fpMatchLoop fp l = true ↔ fp ∈ l := by
  induction l with
  | nil => simp [fpMatchLoop]
  | cons p rest ih =>
      simp only [fpMatchLoop, fingerprintEq]
      split_ifs with h
      · simp [List.mem_cons, eq_of_beq h]
      · have hne : fp ≠ p := fun he => h (by simp [he])
        simp [List.mem_cons, ih, hne]

/-- C1: with fingerprint authentication, an X.509 session, a non-empty peer
certificate chain and successful engine calls, the check succeeds exactly
when the rendered fingerprint of the leaf certificate occurs verbatim in the
permitted-peers list (searched in order, stopping at the first match), and
any failure of the search is RS_RET_INVALID_FINGERPRINT. -/
theorem C1_fingerprint_auth (o : ChkFingerprintOracle) (pThis : nsd_gtls)
    (hAuth : pThis.authMode = AuthMode.GTLS_AUTH_CERTFINGERPRINT)
    (hX509 : o.certType = CertType.GNUTLS_CRT_X509)
    (hCerts : o.certList ≠ [])
    (h1 : o.rCrtInit = 0) (h2 : o.rCrtImport = 0) (h3 : o.rGetFingerprint = 0) :
    ((gtlsChkFingerprint o pThis).1 = RS_RET_OK ↔
      GenFingerprintStr (o.digestOf o.certList.headI) ∈ pThis.pPermPeers.getD []) ∧
    ((gtlsChkFingerprint o pThis).1 ≠ RS_RET_OK →
      (gtlsChkFingerprint o pThis).1 = RS_RET_INVALID_FINGERPRINT) := by
  have hpos : 0 < o.certList.length := List.length_pos.mpr hCerts
  have hlen : ¬ o.certList.length < 1 := by omega
  have hmatch := fpMatchLoop_iff (GenFingerprintStr (o.digestOf o.certList.headI))
    (pThis.pPermPeers.getD [])
  unfold gtlsChkFingerprint
  rw [hAuth]
  simp only [hX509, h1, h2, h3, hlen, ne_eq, not_true_eq_false, not_false_eq_true,
    if_false, if_true, ite_not]
  by_cases hm : fpMatchLoop (GenFingerprintStr (o.digestOf o.certList.headI))
      (pThis.pPermPeers.getD []) = true
  · rw [← hmatch]
    simp [hm]
  · rw [← hmatch]
    simp [hm]

def sFpr : nsd_gtls :=
  { nsd_gtlsConstruct with
      authMode := AuthMode.GTLS_AUTH_CERTFINGERPRINT
      pPermPeers := some [String.toList "12:AB"] }

def oChk : ChkFingerprintOracle :=
  { certType := CertType.GNUTLS_CRT_X509
    certList := [[(0 : Fin 256)]]
    digestOf := fun _ => [(18 : Fin 256), 171]
    rCrtInit := 0
    rCrtImport := 0
    rGetFingerprint := 0 }

/-- C1 witness: a session permitting the fingerprint 12:AB and an oracle
whose leaf digest renders to exactly that string. -/
theorem C1_fingerprint_auth_witness :
    ((gtlsChkFingerprint oChk sFpr).1 = RS_RET_OK ↔
      GenFingerprintStr (oChk.digestOf oChk.certList.headI) ∈ sFpr.pPermPeers.getD []) ∧
    ((gtlsChkFingerprint oChk sFpr).1 ≠ RS_RET_OK →
      (gtlsChkFingerprint oChk sFpr).1 = RS_RET_INVALID_FINGERPRINT) :=
  C1_fingerprint_auth oChk sFpr rfl rfl (by decide) rfl rfl rfl

/-- C2: in certificate-name mode (selected by SetAuthMode with no mode
string, and the constructor default) the peer check succeeds whatever the
engine would report about the peer certificate, and the session is not
modified: no identity verification happens in that mode. -/
theorem C2_certname_no_verification (o : ChkFingerprintOracle) (pThis : nsd_gtls)
    (hAuth : pThis.authMode = AuthMode.GTLS_AUTH_CERTNAME) :
    gtlsChkFingerprint o pThis = (RS_RET_OK, pThis) ∧
    ((SetAuthMode none pThis).1 = RS_RET_OK ∧
      (SetAuthMode none pThis).2.authMode = AuthMode.GTLS_AUTH_CERTNAME) ∧
    nsd_gtlsConstruct.authMode = AuthMode.GTLS_AUTH_CERTNAME := by
  refine ⟨?_, ⟨rfl, rfl⟩, rfl⟩
  unfold gtlsChkFingerprint
  rw [hAuth]
  simp

/-- C2 witness: the freshly constructed session is in certificate-name mode
and passes the check against an arbitrary concrete oracle. -/
theorem C2_certname_no_verification_witness :
    gtlsChkFingerprint oChk nsd_gtlsConstruct = (RS_RET_OK, nsd_gtlsConstruct) ∧
    ((SetAuthMode none nsd_gtlsConstruct).1 = RS_RET_OK ∧
      (SetAuthMode none nsd_gtlsConstruct).2.authMode = AuthMode.GTLS_AUTH_CERTNAME) ∧
    nsd_gtlsConstruct.authMode = AuthMode.GTLS_AUTH_CERTNAME :=
  C2_certname_no_verification oChk nsd_gtlsConstruct rfl

/-- C8: SetMode rejects every mode outside 0 and 1 with
RS_RET_INVALID_DRVR_MODE leaving the session unchanged, and accepts 0 and 1,
storing the given mode. -/
theorem C8_SetMode_valid_modes (mode : Int) (pThis : nsd_gtls) :
    (¬(mode = 0 ∨ mode = 1) →
      SetMode mode pThis = (RS_RET_INVALID_DRVR_MODE, pThis)) ∧
    ((mode = 0 ∨ mode = 1) →
      (SetMode mode pThis).1 = RS_RET_OK ∧ (SetMode mode pThis).2.iMode = mode) := by
  constructor
  · intro h
    have h0 : mode ≠ 0 := fun he => h (Or.inl he)
    have h1 : mode ≠ 1 := fun he => h (Or.inr he)
    simp [SetMode, h0, h1]
  · intro h
    rcases h with h | h <;> subst h <;> simp [SetMode]

/-- C8 witness: mode 2 is rejected without change, mode 1 is stored. -/
theorem C8_SetMode_valid_modes_witness :
    SetMode 2 nsd_gtlsConstruct = (RS_RET_INVALID_DRVR_MODE, nsd_gtlsConstruct) ∧
    ((SetMode 1 nsd_gtlsConstruct).1 = RS_RET_OK ∧
      (SetMode 1 nsd_gtlsConstruct).2.iMode = 1) :=
  ⟨(C8_SetMode_valid_modes 2 nsd_gtlsConstruct).1 (by decide),
   (C8_SetMode_valid_modes 1 nsd_gtlsConstruct).2 (Or.inr rfl)⟩

/-- C9: a NULL permitted-peers list is accepted as a no-op in every auth
mode; a non-NULL list is rejected with RS_RET_VALUE_NOT_IN_THIS_MODE and
ignored unless the auth mode is certificate-name or fingerprint, in which
case it is stored. -/
theorem C9_SetPermPeers_modes (l : Option (List (List Char))) (pThis : nsd_gtls) :
    (l = none → SetPermPeers l pThis = (RS_RET_OK, pThis)) ∧
    (∀ xs, l = some xs →
      (¬(pThis.authMode = AuthMode.GTLS_AUTH_CERTFINGERPRINT ∨
          pThis.authMode = AuthMode.GTLS_AUTH_CERTNAME) →
        SetPermPeers l pThis = (RS_RET_VALUE_NOT_IN_THIS_MODE, pThis)) ∧
      ((pThis.authMode = AuthMode.GTLS_AUTH_CERTFINGERPRINT ∨
          pThis.authMode = AuthMode.GTLS_AUTH_CERTNAME) →
        SetPermPeers l pThis = (RS_RET_OK, { pThis with pPermPeers := some xs }))) := by
  constructor
  · intro h; subst h; rfl
  · intro xs h
    subst h
    constructor
    · intro h
      have hf : pThis.authMode ≠ AuthMode.GTLS_AUTH_CERTFINGERPRINT :=
        fun he => h (Or.inl he)
      have hn : pThis.authMode ≠ AuthMode.GTLS_AUTH_CERTNAME :=
        fun he => h (Or.inr he)
      simp [SetPermPeers, hf, hn]
    · intro h
      rcases h with h | h <;> simp [SetPermPeers, h]

def sAnon : nsd_gtls := { nsd_gtlsConstruct with authMode := AuthMode.GTLS_AUTH_CERTANON }

/-- C9 witness: a NULL list is a no-op on an anonymous-mode session, a
non-NULL list is rejected there, and the same list is stored in
certificate-name mode. -/
theorem C9_SetPermPeers_modes_witness :
    SetPermPeers none sAnon = (RS_RET_OK, sAnon) ∧
    SetPermPeers (some [String.toList "AA"]) sAnon =
      (RS_RET_VALUE_NOT_IN_THIS_MODE, sAnon) ∧
    SetPermPeers (some [String.toList "AA"]) nsd_gtlsConstruct =
      (RS_RET_OK, { nsd_gtlsConstruct with pPermPeers := some [String.toList "AA"] }) :=
  ⟨(C9_SetPermPeers_modes none sAnon).1 rfl,
   ((C9_SetPermPeers_modes (some [String.toList "AA"]) sAnon).2 _ rfl).1 (by decide),
   ((C9_SetPermPeers_modes (some [String.toList "AA"]) nsd_gtlsConstruct).2 _ rfl).2
     (Or.inr rfl)⟩

theorem sendLoop_result (len : Int) :
    ∀ rs out, sendLoop len rs = some out →
      out.1 = RS_RET_OK ∨ out.1 = RS_RET_GNUTLS_ERR := by
  intro rs
  induction rs with
  | nil => intro out h; simp [sendLoop] at h
  | cons r rest ih =>
      intro out h
      unfold sendLoop at h
      split_ifs at h with h1 h2
      · injection h with h
        subst h; exact Or.inl rfl
      · injection h with h
        subst h; exact Or.inr rfl
      · exact ih out h

def sTLS : nsd_gtls := { nsd_gtlsConstruct with iMode := 1 }

/-- C3 counterexample: on a TLS-mode session, Abort changes nothing (it only
forwards to the plain-tcp delegate in plain mode and never sets bAbortConn),
so a Send and a Rcv issued after Abort succeed with data instead of failing
with RS_RET_CONNECTION_ABORTREQ. -/
theorem C3_abort_counterexample :
    (Abort sTLS).2 = sTLS ∧
    Send (RS_RET_OK, 0) [5] 5 (Abort sTLS).2 = some (RS_RET_OK, 5) ∧
    Rcv (RS_RET_OK, 0) [7] 16 (Abort sTLS).2 = some ((RS_RET_OK, 7), []) := by
  decide

/-- C3 amended: Send and Rcv fail with RS_RET_CONNECTION_ABORTREQ exactly
when the session's bAbortConn flag is set at call time; Abort itself returns
RS_RET_OK but never sets that flag (in plain mode it only forwards the abort
to the delegate), so on a TLS session an Abort alone does not make later
Send or Rcv fail with the abort error. -/
theorem C3_abort_flag_behaviour (ptcpS ptcpR : rsRetVal × Int)
    (sendRs rcvRs : List Int) (len : Int) (pThis : nsd_gtls) :
    ((Abort pThis).1 = RS_RET_OK ∧ (Abort pThis).2.bAbortConn = pThis.bAbortConn) ∧
    (pThis.bAbortConn = true →
      Send ptcpS sendRs len pThis = some (RS_RET_CONNECTION_ABORTREQ, len) ∧
      Rcv ptcpR rcvRs len pThis = some ((RS_RET_CONNECTION_ABORTREQ, len), rcvRs)) ∧
    (pThis.bAbortConn = false → pThis.iMode = 1 →
      (∀ out, Send ptcpS sendRs len pThis = some out →
        out.1 ≠ RS_RET_CONNECTION_ABORTREQ) ∧
      (∀ out, Rcv ptcpR rcvRs len pThis = some out →
        out.1.1 ≠ RS_RET_CONNECTION_ABORTREQ)) := by
  refine ⟨?_, ?_, ?_⟩
  · unfold Abort
    split_ifs <;> simp
  · intro h
    simp [Send, Rcv, h]
  · intro h hm
    constructor
    · intro out hout
      have hs : Send ptcpS sendRs len pThis = sendLoop len sendRs := by
        simp [Send, h, hm]
      rw [hs] at hout
      rcases sendLoop_result len sendRs out hout with h1 | h1 <;> simp [h1]
    · cases rcvRs with
      | nil =>
          intro out hout
          simp [Rcv, h, hm] at hout
      | cons r rest =>
          intro out hout
          simp only [Rcv, h, hm] at hout
          norm_num at hout
          split_ifs at hout <;> (injection hout with hout; subst hout; simp)

/-- C3 amended witness: a session with bAbortConn set is rejected on Send
and Rcv, and after an Abort on a clean TLS session Send does not report the
abort error. -/
theorem C3_abort_flag_behaviour_witness :
    (Send (RS_RET_OK, 0) [5] 5 { sTLS with bAbortConn := true } =
        some (RS_RET_CONNECTION_ABORTREQ, 5) ∧
      Rcv (RS_RET_OK, 0) [7] 5 { sTLS with bAbortConn := true } =
        some ((RS_RET_CONNECTION_ABORTREQ, 5), [7])) ∧
    (∀ out, Send (RS_RET_OK, 0) [5] 5 sTLS = some out →
      out.1 ≠ RS_RET_CONNECTION_ABORTREQ) :=
  ⟨(C3_abort_flag_behaviour (RS_RET_OK, 0) (RS_RET_OK, 0) [5] [7] 5
      { sTLS with bAbortConn := true }).2.1 rfl,
   ((C3_abort_flag_behaviour (RS_RET_OK, 0) (RS_RET_OK, 0) [5] [7] 5 sTLS).2.2
      rfl rfl).1⟩

/-- C6: on a TLS-mode session that is not aborted, Rcv consumes exactly one
response of the record layer (the returned suffix is the untouched rest) and
maps it directly: a negative code becomes RS_RET_GNUTLS_ERR with length -1,
a non-negative count (zero included) is returned as is; there is no retry. -/
theorem C6_rcv_single_attempt (ptcpR : rsRetVal × Int) (r : Int) (rest : List Int)
    (len : Int) (pThis : nsd_gtls)
    (hMode : pThis.iMode = 1) (hAb : pThis.bAbortConn = false) :
    Rcv ptcpR (r :: rest) len pThis =
      some ((if r < 0 then (RS_RET_GNUTLS_ERR, -1) else (RS_RET_OK, r)), rest) := by
  simp only [Rcv, hAb, hMode]
  norm_num
  split_ifs <;> rfl

/-- C6 witness: with two queued record-layer responses only the first is
consumed. -/
theorem C6_rcv_single_attempt_witness :
    Rcv (RS_RET_OK, 0) [7, 9] 16 sTLS = some ((RS_RET_OK, 7), [9]) := by
  have h := C6_rcv_single_attempt (RS_RET_OK, 0) 7 [9] 16 sTLS rfl rfl
  simpa using h

/-- Book-keeping for one engine session handle: whether gnutls_init
allocated it during the operation, and whether gnutls_deinit was called on
it before the operation returned. -/
structure HandleLedger where
  allocated : Bool
  freed : Bool
  deriving DecidableEq, Repr

/-- Observable trace of Connect: how many gnutls_handshake calls were made
and whether gtlsChkFingerprint was reached. -/
structure ConnectTrace where
  hsAttempts : Nat
  authInvoked : Bool
  deriving DecidableEq, Repr

/-- Engine and delegate responses consumed by Connect, in call order;
hsResult n is what the n-th gnutls_handshake call would return. -/
structure ConnectOracle where
  rPtcpConnect : rsRetVal
  rInit : Int
  rSetPriority : Int
  rCertTypePriority : Int
  rCredSet : Int
  rGetSock : rsRetVal
  hsResult : Nat → Int
  chk : ChkFingerprintOracle

structure ConnectResult where
  ret : rsRetVal
  sess : nsd_gtls
  ledger : HandleLedger
  trace : ConnectTrace
  deriving Repr

/-- Connect (nsd_gtls.c, lines 720-770): plain tcp connect, then in TLS mode
session setup followed by a single CHKgnutls-guarded gnutls_handshake call
(line 755) and, on handshake success, gtlsChkFingerprint; the finalize_it
block (lines 761-767) deinitialises the session on every failure once
bHaveSess is set. -/
def Connect (o : ConnectOracle) (pThis : nsd_gtls) : ConnectResult :=
  if o.rPtcpConnect ≠ RS_RET_OK then
    ⟨o.rPtcpConnect, pThis, ⟨false, false⟩, ⟨0, false⟩⟩
  else if pThis.iMode = 0 then
    ⟨RS_RET_OK, pThis, ⟨false, false⟩, ⟨0, false⟩⟩
  else if o.rInit ≠ 0 then
    ⟨RS_RET_GNUTLS_ERR, pThis, ⟨false, false⟩, ⟨0, false⟩⟩
  else
    let s1 : nsd_gtls := { pThis with bHaveSess := true, bIsInitiator := true }
    let fail : rsRetVal → Nat → ConnectResult := fun code n =>
      ⟨code, { s1 with bHaveSess := false }, ⟨true, true⟩, ⟨n, false⟩⟩
    if o.rSetPriority ≠ 0 then fail RS_RET_GNUTLS_ERR 0
    else if o.rCertTypePriority ≠ 0 then fail RS_RET_GNUTLS_ERR 0
    else if o.rCredSet ≠ 0 then fail RS_RET_GNUTLS_ERR 0
    else if o.rGetSock ≠ RS_RET_OK then fail o.rGetSock 0
    else if o.hsResult 0 ≠ 0 then fail RS_RET_GNUTLS_ERR 1
    else
      let chkOut := gtlsChkFingerprint o.chk s1
      if chkOut.1 ≠ RS_RET_OK then
        ⟨chkOut.1, { chkOut.2 with bHaveSess := false }, ⟨true, true⟩, ⟨1, true⟩⟩
      else
        ⟨RS_RET_OK, chkOut.2, ⟨true, false⟩, ⟨1, true⟩⟩

def oC4 : ConnectOracle :=
  { rPtcpConnect := RS_RET_OK
    rInit := 0
    rSetPriority := 0
    rCertTypePriority := 0
    rCredSet := 0
    rGetSock := RS_RET_OK
    hsResult := fun n => if n = 0 then GNUTLS_E_AGAIN else 0
    chk := oChk }

/-- C4 counterexample: the first gnutls_handshake call reports the transient
would-block code and a retry would succeed, yet Connect makes exactly one
attempt, never reaches the authenticator, and fails with RS_RET_GNUTLS_ERR
(not RS_RET_TLS_HANDSHAKE_ERR): there is no retry loop in Connect. -/
theorem C4_connect_counterexample :
    oC4.hsResult 0 = GNUTLS_E_AGAIN ∧ oC4.hsResult 1 = 0 ∧
    (Connect oC4 sTLS).ret = RS_RET_GNUTLS_ERR ∧
    (Connect oC4 sTLS).trace.hsAttempts = 1 ∧
    (Connect oC4 sTLS).trace.authInvoked = false := by
  refine ⟨rfl, rfl, ?_, ?_, ?_⟩ <;> rfl

/-- C4 amended: in TLS mode, after a successful transport connect and
session setup, Connect makes exactly one handshake attempt; any nonzero
handshake result, transient codes included, tears the session down and
surfaces RS_RET_GNUTLS_ERR, while a zero result leads on to
gtlsChkFingerprint, whose verdict becomes the result of Connect. -/
theorem C4_connect_single_handshake (o : ConnectOracle) (pThis : nsd_gtls)
    (hPt : o.rPtcpConnect = RS_RET_OK) (hMode : pThis.iMode = 1)
    (hInit : o.rInit = 0) (hPrio : o.rSetPriority = 0)
    (hCtp : o.rCertTypePriority = 0) (hCred : o.rCredSet = 0)
    (hSock : o.rGetSock = RS_RET_OK) :
    (Connect o pThis).trace.hsAttempts = 1 ∧
    (o.hsResult 0 ≠ 0 →
      (Connect o pThis).ret = RS_RET_GNUTLS_ERR ∧
      (Connect o pThis).trace.authInvoked = false ∧
      (Connect o pThis).ledger = ⟨true, true⟩ ∧
      (Connect o pThis).sess.bHaveSess = false) ∧
    (o.hsResult 0 = 0 →
      (Connect o pThis).trace.authInvoked = true ∧
      (Connect o pThis).ret =
        (gtlsChkFingerprint o.chk
          { pThis with bHaveSess := true, bIsInitiator := true }).1) := by
  have hc : Connect o pThis =
      (if o.hsResult 0 ≠ 0 then
        ⟨RS_RET_GNUTLS_ERR,
          { pThis with bHaveSess := false, bIsInitiator := true }, ⟨true, true⟩, ⟨1, false⟩⟩
      else
        let chkOut := gtlsChkFingerprint o.chk
          { pThis with bHaveSess := true, bIsInitiator := true }
        if chkOut.1 ≠ RS_RET_OK then
          ⟨chkOut.1, { chkOut.2 with bHaveSess := false }, ⟨true, true⟩, ⟨1, true⟩⟩
        else
          ⟨RS_RET_OK, chkOut.2, ⟨true, false⟩, ⟨1, true⟩⟩) := by
    simp [Connect, hPt, hMode, hInit, hPrio, hCtp, hCred, hSock]
  by_cases hh : o.hsResult 0 = 0
  · rw [hc]
    simp only [hh, ne_eq, not_true_eq_false, if_false]
    by_cases hcf : (gtlsChkFingerprint o.chk
        { pThis with bHaveSess := true, bIsInitiator := true }).1 = RS_RET_OK
    · simp [hcf]
    · simp [hcf]
  · rw [hc]
    simp [hh]

def oC4ok : ConnectOracle :=
  { rPtcpConnect := RS_RET_OK
    rInit := 0
    rSetPriority := 0
    rCertTypePriority := 0
    rCredSet := 0
    rGetSock := RS_RET_OK
    hsResult := fun _ => 0
    chk := oChk }

/-- C4 amended witness: with an immediately successful handshake exactly one
attempt is made and the authenticator is reached. -/
theorem C4_connect_single_handshake_witness :
    (Connect oC4ok sTLS).trace.hsAttempts = 1 ∧
    (Connect oC4ok sTLS).trace.authInvoked = true := by
  have h := C4_connect_single_handshake oC4ok sTLS rfl rfl rfl rfl rfl rfl rfl
  exact ⟨h.1, (h.2.2 rfl).1⟩

/-- gtlsInitSession (nsd_gtls.c, lines 186-209): gnutls_init for the server
role is called without checking its result, bHaveSess is set at once, then
priorities and credentials are applied under CHKgnutls. -/
def gtlsInitSession (rPriority rCredSet : Int) (pThis : nsd_gtls) :
    rsRetVal × nsd_gtls :=
  let s1 : nsd_gtls := { pThis with bHaveSess := true, bIsInitiator := false }
  if rPriority ≠ 0 then (RS_RET_GNUTLS_ERR, s1)
  else if rCredSet ≠ 0 then (RS_RET_GNUTLS_ERR, s1)
  else (RS_RET_OK, s1)

/-- nsd_gtlsDestruct (lines 398-407) calls gtlsEndSess, and with it
gnutls_deinit, only when the object is already in TLS mode (iMode = 1);
gtlsEndSess itself (lines 353-369) additionally requires bHaveSess. -/
def nsd_gtlsDestructFreesHandle (pThis : nsd_gtls) : Bool :=
  decide (pThis.iMode = 1) && pThis.bHaveSess

/-- Delegate and engine responses consumed by AcceptConnReq, in call order. -/
structure AcceptOracle where
  rConstruct : rsRetVal
  rPtcpDestruct : rsRetVal
  rPtcpAccept : rsRetVal
  rInitPriority : Int
  rInitCredSet : Int
  hsResult : Int
  deriving Repr

structure AcceptResult where
  ret : rsRetVal
  newSess : Option nsd_gtls
  ledger : HandleLedger
  deriving DecidableEq, Repr

/-- AcceptConnReq (nsd_gtls.c, lines 585-632): construct a fresh session,
swap in the accepted tcp socket, and in TLS mode run gtlsInitSession, copy
authMode and pPermPeers from the listener, and make one handshake attempt;
transient codes mark the session for external retry, a fatal code aborts
with RS_RET_TLS_HANDSHAKE_ERR.  The finalize_it block (lines 626-631)
destructs the new object on failure; whether that destruction also frees the
engine session handle is decided by nsd_gtlsDestructFreesHandle on the state
the object has at that moment (iMode is only set to 1 on full success at
line 622). -/
def AcceptConnReq (o : AcceptOracle) (pThis : nsd_gtls) : AcceptResult :=
  if o.rConstruct ≠ RS_RET_OK then ⟨o.rConstruct, none, ⟨false, false⟩⟩
  else
    let pNew := nsd_gtlsConstruct
    if o.rPtcpDestruct ≠ RS_RET_OK then
      ⟨o.rPtcpDestruct, none, ⟨false, nsd_gtlsDestructFreesHandle pNew⟩⟩
    else if o.rPtcpAccept ≠ RS_RET_OK then
      ⟨o.rPtcpAccept, none, ⟨false, nsd_gtlsDestructFreesHandle pNew⟩⟩
    else if pThis.iMode = 0 then
      ⟨RS_RET_OK, some pNew, ⟨false, false⟩⟩
    else
      let initOut := gtlsInitSession o.rInitPriority o.rInitCredSet pNew
      if initOut.1 ≠ RS_RET_OK then
        ⟨initOut.1, none, ⟨true, nsd_gtlsDestructFreesHandle initOut.2⟩⟩
      else
        let s2 : nsd_gtls :=
          { initOut.2 with authMode := pThis.authMode, pPermPeers := pThis.pPermPeers }
        if o.hsResult = GNUTLS_E_AGAIN ∨ o.hsResult = GNUTLS_E_INTERRUPTED then
          ⟨RS_RET_OK, some { s2 with rtryCall := RtryCall.gtlsRtry_handshake, iMode := 1 },
            ⟨true, false⟩⟩
        else if o.hsResult ≠ 0 then
          ⟨RS_RET_TLS_HANDSHAKE_ERR, none, ⟨true, nsd_gtlsDestructFreesHandle s2⟩⟩
        else
          ⟨RS_RET_OK, some { s2 with iMode := 1 }, ⟨true, false⟩⟩

def oC5 : AcceptOracle :=
  { rConstruct := RS_RET_OK
    rPtcpDestruct := RS_RET_OK
    rPtcpAccept := RS_RET_OK
    rInitPriority := 0
    rInitCredSet := 0
    hsResult := -10 }

/-- C5: at the failing input (TLS listener, fatal handshake result -10) the
accept path returns RS_RET_TLS_HANDSHAKE_ERR and hands no session to the
caller, but the engine session allocated by gtlsInitSession is never freed:
the destructor skips gtlsEndSess because iMode is still 0 at that point,
although bHaveSess is set - the partially built TLS handle is not torn
down. -/
theorem C5_accept_handshake_leak :
    (AcceptConnReq oC5 sTLS).ret = RS_RET_TLS_HANDSHAKE_ERR ∧
    (AcceptConnReq oC5 sTLS).newSess = none ∧
    (AcceptConnReq oC5 sTLS).ledger.allocated = true ∧
    (AcceptConnReq oC5 sTLS).ledger.freed = false := by
  refine ⟨?_, ?_, ?_, ?_⟩ <;> rfl

/-- Process-wide listener-initialisation state: the one-time guard flag, how
often DH-parameter generation was attempted, and how often the generated
parameters were installed into the global credentials. -/
structure GlblLstnState where
  bGlblSrvrInitDone : Bool
  genAttempts : Nat
  dhParamsSetCount : Nat
  deriving DecidableEq, Repr

/-- generate_dh_params (nsd_gtls.c, lines 212-226): the two engine calls
either both succeed or the function fails with RS_RET_GNUTLS_ERR. -/
def generate_dh_params (genOk : Bool) : rsRetVal :=
  if genOk then RS_RET_OK else RS_RET_GNUTLS_ERR

/-- gtlsGlblInitLstn (nsd_gtls.c, lines 232-250): when the guard flag is
still clear, generate DH parameters, install them and set the flag; the
flag is set only after successful generation, and a set flag makes the call
a no-op. -/
def gtlsGlblInitLstn (genOk : Bool) (s : GlblLstnState) : rsRetVal × GlblLstnState :=
  if s.bGlblSrvrInitDone = false then
    let s1 := { s with genAttempts := s.genAttempts + 1 }
    if generate_dh_params genOk = RS_RET_OK then
      (RS_RET_OK,
        { s1 with dhParamsSetCount := s1.dhParamsSetCount + 1, bGlblSrvrInitDone := true })
    else (RS_RET_GNUTLS_ERR, s1)
  else (RS_RET_OK, s)

/-- LstnInit (nsd_gtls.c, lines 540-549): run the one-time global listener
setup, then delegate listener creation to the plain-tcp driver. -/
def LstnInit (genOk : Bool) (rPtcpLstn : rsRetVal) (s : GlblLstnState) :
    rsRetVal × GlblLstnState :=
  let g := gtlsGlblInitLstn genOk s
  if g.1 ≠ RS_RET_OK then g else (rPtcpLstn, g.2)

/-- The process starts with the guard flag clear and no generation done. -/
def glblInitState : GlblLstnState := ⟨false, 0, 0⟩

/-- n successive calls of the listener-setup path. -/
def iterLstnInit (genOk : Bool) : Nat → GlblLstnState → GlblLstnState
  | 0, s => s
  | n + 1, s => iterLstnInit genOk n (gtlsGlblInitLstn genOk s).2

theorem iterLstnInit_done (m : Nat) :
    ∀ s : GlblLstnState, s.bGlblSrvrInitDone = true → iterLstnInit true m s = s := by
  induction m with
  | zero => intro s _; rfl
  | succ k ih =>
      intro s hs
      have hstep : gtlsGlblInitLstn true s = (RS_RET_OK, s) := by
        simp [gtlsGlblInitLstn, hs]
      simp only [iterLstnInit, hstep]
      exact ih s hs

/-- C10: starting from the fresh global state, n calls (n >= 1) of the
listener-setup path with successful engine generation perform the DH
parameter generation exactly once and install the parameters exactly once,
on the first call; every call finding the guard flag set returns RS_RET_OK
and leaves the global state untouched. -/
theorem C10_dh_generation_once (n : Nat) (hn : 1 ≤ n) :
    iterLstnInit true n glblInitState =
      { bGlblSrvrInitDone := true, genAttempts := 1, dhParamsSetCount := 1 } ∧
    ∀ s : GlblLstnState, s.bGlblSrvrInitDone = true →
      gtlsGlblInitLstn true s = (RS_RET_OK, s) := by
  constructor
  · obtain ⟨m, rfl⟩ : ∃ m, n = m + 1 := ⟨n - 1, by omega⟩
    have h1 : (gtlsGlblInitLstn true glblInitState).2 =
        { bGlblSrvrInitDone := true, genAttempts := 1, dhParamsSetCount := 1 } := rfl
    simp only [iterLstnInit, h1]
    exact iterLstnInit_done m _ rfl
  · intro s hs
    simp [gtlsGlblInitLstn, hs]

/-- C10 witness: three calls generate exactly once, and the third call is a
no-op on the settled state. -/
theorem C10_dh_generation_once_witness :
    iterLstnInit true 3 glblInitState =
      { bGlblSrvrInitDone := true, genAttempts := 1, dhParamsSetCount := 1 } ∧
    gtlsGlblInitLstn true
      { bGlblSrvrInitDone := true, genAttempts := 1, dhParamsSetCount := 1 } =
      (RS_RET_OK, { bGlblSrvrInitDone := true, genAttempts := 1, dhParamsSetCount := 1 }) :=
  ⟨(C10_dh_generation_once 3 (by decide)).1,
   (C10_dh_generation_once 3 (by decide)).2 _ rfl⟩
